import Mathlib

/-!
Verification of `bcbio/variation/sentieon.py` (bcbio-nextgen).

The module has five functions: `license_export`, `_get_interval`, `run_tnscope`,
`run_tnhaplotyper` and `run_haplotyper`.  They are embedded below as executable
Lean definitions.  External collaborators of the module (`config_utils`,
`utils.file_exists`, `utils.splitext_plus`, `os.path.isfile`,
`shared.subset_variant_regions`, `bamprep.region_to_gatk`,
`vcfutils.get_paired_bams`, `file_transaction`, `do.run`) are not part of the
analysed sources; they are modelled from the specification's description of
their interfaces, as noted on each definition.
-/

set_option maxRecDepth 4096

namespace Sentieon

/-- A Python value appearing in an associated-files mapping: either `None` or a
string path.  `"%s" % v` rendering maps `None` to the literal text `None`. -/
inductive PyVal where
  | vnone : PyVal
  | vstr : String → PyVal
deriving DecidableEq, Repr

/-- Python `"%s" % v` rendering of an associated-files value. -/
def PyVal.str : PyVal → String
  | .vnone => "None"
  | .vstr s => s

/-- The `keyfile` resource for the sentieon tool: either a single license-server
string or an (insertion-ordered) mapping of environment-variable names to
values, matching the `isinstance(server, basestring)` /
`isinstance(server, dict)` dichotomy in `license_export`. -/
inductive Keyfile where
  | kstr : String → Keyfile
  | kdict : List (String × String) → Keyfile
deriving DecidableEq, Repr

/-- Python truthiness of a keyfile value (`if not server`): the empty string and
the empty dict are falsy. -/
def Keyfile.truthy : Keyfile → Bool
  | .kstr s => !(s == "")
  | .kdict m => !m.isEmpty

/-- Association-list lookup modelling Python dict lookup (`d.get(k)` /
`k in d`): first matching key wins; dict keys are unique so this is exact. -/
def dictGet {α : Type} (k : String) : List (String × α) → Option α
  | [] => none
  | kv :: rest => if kv.1 = k then some kv.2 else dictGet k rest

/-- Python `str.upper()` on ASCII keys. -/
def strUpper (s : String) : String := ⟨s.data.map Char.toUpper⟩

/-- A configuration object (`data["config"]`): per-tool resource mappings. -/
structure Config where
  resources : List (String × List (String × Keyfile))
deriving DecidableEq, Repr

/-- Modelled from the spec: the configuration accessor
`config_utils.get_resources` is not under the analysed sources; per the spec it
is "given a tool name and a configuration object, returns a per-tool resource
mapping (may contain `keyfile`)"; a tool with no entry yields an empty
mapping. -/
def get_resources (name : String) (c : Config) : List (String × Keyfile) :=
  (dictGet name c.resources).getD []

/-- A sample item (`data` / `items[i]` in the source): carries the
configuration used for the license lookup. -/
structure Item where
  config : Config
deriving DecidableEq, Repr

instance : Inhabited Item := ⟨⟨⟨[]⟩⟩⟩

/-- The `ValueError` message text of `license_export` (abbreviated). -/
def licenseErrMsg : String :=
  "Need to set resources keyfile with URL:port of license server, local license file or environmental variables to export"

/-- The `license_export(data)` function of `sentieon.py`: retrieve the export
statement for the sentieon license server.  A missing or falsy `keyfile`
resource raises `ValueError` (modelled as `Except.error`); a string value
yields `export SENTIEON_LICENSE=<value> && `; a dict value yields one
`export <KEY>=<value> && ` per entry, in insertion order, with the key
upper-cased and the value unaltered. -/
def license_export (data : Item) : Except String String :=
  let resources := get_resources "sentieon" data.config
  match dictGet "keyfile" resources with
  | none => .error licenseErrMsg
  | some server =>
    if server.truthy then
      match server with
      | .kstr s => .ok ("export SENTIEON_LICENSE=" ++ s ++ " && ")
      | .kdict m =>
        .ok (m.foldl (fun exports kv => exports ++ ("export " ++ strUpper kv.1 ++ "=" ++ kv.2 ++ " && ")) "")
    else .error licenseErrMsg

/-- The reconciled result of `shared.subset_variant_regions`: Python returns
either a string (a BED-file path or textual region) or a structured region
tuple `(chrom, start, end)`. -/
inductive Target where
  | tstr : String → Target
  | tdesc : String → Nat → Nat → Target
deriving DecidableEq, Repr

/-- Python truthiness of a reconciled target (`if target`): the empty string is
falsy, a region tuple is truthy. -/
def Target.truthy : Target → Bool
  | .tstr s => !(s == "")
  | .tdesc _ _ _ => true

/-- A tumor/normal pairing as returned by `vcfutils.get_paired_bams`; the
normal members may be `None` for tumor-only inputs. -/
structure Paired where
  tumor_bam : String
  normal_bam : Option String
  tumor_name : String
  normal_name : String
deriving DecidableEq, Repr

/-- Python truthiness of an optional path (`assert paired.normal_bam`). -/
def optStrTruthy : Option String → Bool
  | none => false
  | some s => !(s == "")

/-- Modelled from the spec: the external collaborators consumed by the callers,
none of which are under the analysed sources — the filesystem existence check
(`utils.file_exists`), the plain-file check (`os.path.isfile`), the
transactional output scope (`file_transaction`, yielding a temporary path for a
final path), the process runner (`do.run`, succeeding or failing per command
line), the reconciled region-subsetting result for the call
(`shared.subset_variant_regions`), the region formatter
(`bamprep.region_to_gatk`) and the pairing extractor
(`vcfutils.get_paired_bams`, falsy when no pairing is derivable). -/
structure Collab where
  file_exists : String → Bool
  isfile : String → Bool
  tx_path : String → String
  proc_ok : String → Bool
  subset_variant_regions : Option Target
  region_to_gatk : Target → String
  get_paired : Option Paired

/-- The `_get_interval` helper of `sentieon.py`: retrieve the interval
restriction fragment.  The reconciled subsetting result is
`C.subset_variant_regions`; a falsy result yields the empty fragment, an
existing file path yields `--interval <path>`, anything else is formatted by
`region_to_gatk`. -/
def _get_interval (C : Collab) : String :=
  match C.subset_variant_regions with
  | none => ""
  | some target =>
    if target.truthy then
      match target with
      | .tstr s =>
        if C.isfile s then "--interval " ++ s
        else "--interval " ++ C.region_to_gatk (.tstr s)
      | .tdesc ch st en => "--interval " ++ C.region_to_gatk (.tdesc ch st en)
    else ""

/-- Split a character list at its last dot: the base and the extension
(including the dot).  Helper for the `splitext` model. -/
def splitLastDot : List Char → (List Char × List Char)
  | [] => ([], [])
  | c :: rest =>
    if rest.contains '.' then
      ((splitLastDot rest).1.cons c, (splitLastDot rest).2)
    else if c = '.' then ([], c :: rest)
    else (c :: rest, [])

/-- Modelled from the spec: `os.path.splitext`-style split of a path into base
and final extension. -/
def splitext (f : String) : String × String :=
  (⟨(splitLastDot f.data).1⟩, ⟨(splitLastDot f.data).2⟩)

/-- Modelled from the spec: `utils.splitext_plus` is not under the analysed
sources; the spec describes the derived output path as the first alignment's
path with its "(possibly multi-part) extension" replaced, a compression
extension (`.gz`, `.bz2`, `.zip`) being split together with the extension that
precedes it. -/
def splitext_plus (f : String) : String × String :=
  let be := splitext f
  if be.2 = ".gz" ∨ be.2 = ".bz2" ∨ be.2 = ".zip" then
    ((splitext be.1).1, (splitext be.1).2 ++ be.2)
  else be

/-- The output-path resolution repeated verbatim at the top of each caller:
`out_file = "%s-variants.vcf.gz" % utils.splitext_plus(align_bams[0])[0]` when
no output path was supplied. -/
def resolve_out (outFile : Option String) (align_bams : List String) : String :=
  match outFile with
  | some f => f
  | none => (splitext_plus (align_bams.headD "")).1 ++ "-variants.vcf.gz"

/-- The conditional flag idiom of the callers:
`"<flag> %s" % assoc_files.get(key) if key in assoc_files else ""`.  Emission
depends only on key membership, never on the value. -/
def assoc_flag (flag key : String) (assoc_files : List (String × PyVal)) : String :=
  match dictGet key assoc_files with
  | some v => flag ++ " " ++ v.str
  | none => ""

/-- The Python exceptions observable from the callers: `ValueError` from
`license_export`, `AssertionError` from the pairing asserts, `AttributeError`
from `paired.normal_bam` when `paired` is `None`, and the fatal error raised by
the process runner `do.run` on a non-zero exit. -/
inductive RunErr where
  | valueError : String → RunErr
  | assertionError : String → RunErr
  | attributeError : String → RunErr
  | subprocessError : String → RunErr
deriving DecidableEq, Repr

deriving instance DecidableEq for Except

/-- The observable outcome of one caller invocation: the returned path or the
raised error, the command lines handed to the process runner `do.run` (in
order), and whether the final output path exists afterwards.  Modelled from the
spec: the transactional scope publishes the final output exactly when the
process runner succeeds, and discards the temporary artifact otherwise, so
`finalExists` is true iff the output pre-existed or the single invocation
succeeded. -/
structure RunOut where
  result : Except RunErr String
  calls : List String
  finalExists : Bool
deriving DecidableEq, Repr

/-- The TNscope command template of `run_tnscope` (`cmd.format(**locals())`). -/
def tnscope_cmd (license ref_file tumor_bam normal_bam interval tumor_name normal_name dbsnp tx_out_file : String) : String :=
  license ++ "sentieon driver -t 1 -r " ++ ref_file ++ " -i " ++ tumor_bam ++ " -i " ++ normal_bam ++ " " ++ interval ++ " --algo TNscope --tumor_sample " ++ tumor_name ++ " --normal_sample " ++ normal_name ++ " " ++ dbsnp ++ " " ++ tx_out_file

/-- The TNhaplotyper command template of `run_tnhaplotyper`. -/
def tnhaplotyper_cmd (license ref_file tumor_bam normal_bam interval tumor_name normal_name dbsnp cosmic tx_out_file : String) : String :=
  license ++ "sentieon driver -t 1 -r " ++ ref_file ++ " -i " ++ tumor_bam ++ " -i " ++ normal_bam ++ " " ++ interval ++ " --algo TNhaplotyper --tumor_sample " ++ tumor_name ++ " --normal_sample " ++ normal_name ++ " " ++ dbsnp ++ " " ++ cosmic ++ " " ++ tx_out_file

/-- The Haplotyper command template of `run_haplotyper`. -/
def haplotyper_cmd (license ref_file bams interval dbsnp tx_out_file : String) : String :=
  license ++ "sentieon driver -t 1 -r " ++ ref_file ++ " " ++ bams ++ " " ++ interval ++ " --algo Haplotyper " ++ dbsnp ++ " " ++ tx_out_file

/-- The `run_tnscope` caller of `sentieon.py`.  Control flow as in the source:
resolve the output path; return it untouched when it already exists; otherwise
resolve the interval, open the transactional scope, derive the pairing and
`assert paired and paired.normal_bam` (a falsy pairing or missing normal BAM is
an `AssertionError`), build the optional `--dbsnp` flag, resolve the license
prefix (`ValueError` when unset), format the command and hand it to the
process runner. -/
def run_tnscope (C : Collab) (align_bams : List String) (items : List Item)
    (ref_file : String) (assoc_files : List (String × PyVal))
    (outFile : Option String) : RunOut :=
  let out_file := resolve_out outFile align_bams
  if C.file_exists out_file then ⟨.ok out_file, [], true⟩
  else
    let interval := _get_interval C
    let tx_out_file := C.tx_path out_file
    match C.get_paired with
    | none => ⟨.error (.assertionError "Require normal BAM for Sentieon TNscope"), [], false⟩
    | some paired =>
      if optStrTruthy paired.normal_bam then
        let dbsnp := assoc_flag "--dbsnp" "dbsnp" assoc_files
        match license_export (items.headD default) with
        | .error e => ⟨.error (.valueError e), [], false⟩
        | .ok license =>
          let cmd := tnscope_cmd license ref_file paired.tumor_bam (paired.normal_bam.getD "") interval paired.tumor_name paired.normal_name dbsnp tx_out_file
          if C.proc_ok cmd then ⟨.ok out_file, [cmd], true⟩
          else ⟨.error (.subprocessError cmd), [cmd], false⟩
      else ⟨.error (.assertionError "Require normal BAM for Sentieon TNscope"), [], false⟩

/-- The `run_tnhaplotyper` caller of `sentieon.py`.  Same shape as
`run_tnscope`, additionally building an optional `--cosmic` flag; the assert is
only `assert paired.normal_bam`, so a falsy pairing raises `AttributeError`
(attribute access on `None`) rather than `AssertionError`. -/
def run_tnhaplotyper (C : Collab) (align_bams : List String) (items : List Item)
    (ref_file : String) (assoc_files : List (String × PyVal))
    (outFile : Option String) : RunOut :=
  let out_file := resolve_out outFile align_bams
  if C.file_exists out_file then ⟨.ok out_file, [], true⟩
  else
    let interval := _get_interval C
    let tx_out_file := C.tx_path out_file
    match C.get_paired with
    | none => ⟨.error (.attributeError "NoneType object has no attribute normal_bam"), [], false⟩
    | some paired =>
      if optStrTruthy paired.normal_bam then
        let dbsnp := assoc_flag "--dbsnp" "dbsnp" assoc_files
        let cosmic := assoc_flag "--cosmic" "cosmic" assoc_files
        match license_export (items.headD default) with
        | .error e => ⟨.error (.valueError e), [], false⟩
        | .ok license =>
          let cmd := tnhaplotyper_cmd license ref_file paired.tumor_bam (paired.normal_bam.getD "") interval paired.tumor_name paired.normal_name dbsnp cosmic tx_out_file
          if C.proc_ok cmd then ⟨.ok out_file, [cmd], true⟩
          else ⟨.error (.subprocessError cmd), [cmd], false⟩
      else ⟨.error (.assertionError "Require normal BAM for Sentieon TNhaplotyper"), [], false⟩

/-- The `run_haplotyper` caller of `sentieon.py`: germline calling with one
`-i <path>` flag per alignment file (`" ".join(["-i %s" % x for x in
align_bams])`), no pairing requirement. -/
def run_haplotyper (C : Collab) (align_bams : List String) (items : List Item)
    (ref_file : String) (assoc_files : List (String × PyVal))
    (outFile : Option String) : RunOut :=
  let out_file := resolve_out outFile align_bams
  if C.file_exists out_file then ⟨.ok out_file, [], true⟩
  else
    let interval := _get_interval C
    let tx_out_file := C.tx_path out_file
    let dbsnp := assoc_flag "--dbsnp" "dbsnp" assoc_files
    let bams := String.intercalate " " (align_bams.map (fun x => "-i " ++ x))
    match license_export (items.headD default) with
    | .error e => ⟨.error (.valueError e), [], false⟩
    | .ok license =>
      let cmd := haplotyper_cmd license ref_file bams interval dbsnp tx_out_file
      if C.proc_ok cmd then ⟨.ok out_file, [cmd], true⟩
      else ⟨.error (.subprocessError cmd), [cmd], false⟩

/-- The command `run_tnscope` formats once it reaches the process runner, as a
function of the call's inputs, the resolved license prefix and the derived
pairing. -/
def tnscopeCmdOf (C : Collab) (align_bams : List String) (lic ref_file : String)
    (assoc_files : List (String × PyVal)) (paired : Paired) (outFile : Option String) : String :=
  tnscope_cmd lic ref_file paired.tumor_bam (paired.normal_bam.getD "") (_get_interval C)
    paired.tumor_name paired.normal_name (assoc_flag "--dbsnp" "dbsnp" assoc_files)
    (C.tx_path (resolve_out outFile align_bams))

/-- The command `run_tnhaplotyper` formats once it reaches the process
runner. -/
def tnhaplotyperCmdOf (C : Collab) (align_bams : List String) (lic ref_file : String)
    (assoc_files : List (String × PyVal)) (paired : Paired) (outFile : Option String) : String :=
  tnhaplotyper_cmd lic ref_file paired.tumor_bam (paired.normal_bam.getD "") (_get_interval C)
    paired.tumor_name paired.normal_name (assoc_flag "--dbsnp" "dbsnp" assoc_files)
    (assoc_flag "--cosmic" "cosmic" assoc_files) (C.tx_path (resolve_out outFile align_bams))

/-- The command `run_haplotyper` formats once it reaches the process runner. -/
def haplotyperCmdOf (C : Collab) (align_bams : List String) (lic ref_file : String)
    (assoc_files : List (String × PyVal)) (outFile : Option String) : String :=
  haplotyper_cmd lic ref_file (String.intercalate " " (align_bams.map (fun x => "-i " ++ x)))
    (_get_interval C) (assoc_flag "--dbsnp" "dbsnp" assoc_files)
    (C.tx_path (resolve_out outFile align_bams))

/-- Substring occurrence: `pat` occurs inside `s`. -/
def StrContains (s pat : String) : Prop := ∃ a b : String, s = a ++ pat ++ b

/-- The export chain a dict-shaped keyfile should produce: one
`export <KEY>=<value> && ` statement per entry, in insertion order, with the
key upper-cased and the value unaltered. -/
def exportsOf : List (String × String) → String
  | [] => ""
  | kv :: rest => "export " ++ strUpper kv.1 ++ "=" ++ kv.2 ++ " && " ++ exportsOf rest

/-- Whether the `keyfile` entry of the sentieon resources of an item is absent
or falsy (the condition under which `license_export` raises `ValueError`). -/
def keyfile_falsy (d : Item) : Bool :=
  match dictGet "keyfile" (get_resources "sentieon" d.config) with
  | none => true
  | some k => !k.truthy

/-- Whether a run outcome is a raised `AssertionError`. -/
def raisedAssertion (r : RunOut) : Bool :=
  match r.result with
  | .error (.assertionError _) => true
  | _ => false

theorem strApp_assoc (a b c : String) : a ++ b ++ c = a ++ (b ++ c) := by
  cases a with
  | mk la =>
    cases b with
    | mk lb =>
      cases c with
      | mk lc => exact congrArg String.mk (List.append_assoc la lb lc)

theorem strApp_empty (s : String) : s ++ "" = s := by
  cases s with
  | mk l => exact congrArg String.mk (List.append_nil l)

theorem strEmpty_app (s : String) : "" ++ s = s := by
  cases s with
  | mk l => rfl

theorem foldl_exports (m : List (String × String)) (init : String) :
    m.foldl (fun exports kv => exports ++ ("export " ++ strUpper kv.1 ++ "=" ++ kv.2 ++ " && ")) init
      = init ++ exportsOf m := by
  induction m generalizing init with
  | nil => simp [exportsOf, strApp_empty]
  | cons kv rest ih =>
    rw [List.foldl_cons, ih]
    simp only [exportsOf]
    simp [strApp_assoc]

theorem assoc_flag_some (flag key : String) (assoc : List (String × PyVal)) (v : PyVal)
    (h : dictGet key assoc = some v) : assoc_flag flag key assoc = flag ++ " " ++ v.str := by
  simp [assoc_flag, h]

theorem assoc_flag_none (flag key : String) (assoc : List (String × PyVal))
    (h : dictGet key assoc = none) : assoc_flag flag key assoc = "" := by
  simp [assoc_flag, h]

theorem run_tnscope_ok_out (C : Collab) (align_bams : List String) (items : List Item)
    (ref_file : String) (assoc_files : List (String × PyVal)) (outFile : Option String)
    (p : String) (hp : (run_tnscope C align_bams items ref_file assoc_files outFile).result = .ok p) :
    p = resolve_out outFile align_bams := by
  simp only [run_tnscope] at hp
  split at hp
  · simp at hp
    exact hp.symm
  · split at hp
    · simp at hp
    · split at hp
      · split at hp
        · simp at hp
        · split at hp
          · simp at hp
            exact hp.symm
          · simp at hp
      · simp at hp

theorem run_tnhaplotyper_ok_out (C : Collab) (align_bams : List String) (items : List Item)
    (ref_file : String) (assoc_files : List (String × PyVal)) (outFile : Option String)
    (p : String) (hp : (run_tnhaplotyper C align_bams items ref_file assoc_files outFile).result = .ok p) :
    p = resolve_out outFile align_bams := by
  simp only [run_tnhaplotyper] at hp
  split at hp
  · simp at hp
    exact hp.symm
  · split at hp
    · simp at hp
    · split at hp
      · split at hp
        · simp at hp
        · split at hp
          · simp at hp
            exact hp.symm
          · simp at hp
      · simp at hp

theorem run_haplotyper_ok_out (C : Collab) (align_bams : List String) (items : List Item)
    (ref_file : String) (assoc_files : List (String × PyVal)) (outFile : Option String)
    (p : String) (hp : (run_haplotyper C align_bams items ref_file assoc_files outFile).result = .ok p) :
    p = resolve_out outFile align_bams := by
  simp only [run_haplotyper] at hp
  split at hp
  · simp at hp
    exact hp.symm
  · split at hp
    · simp at hp
    · split at hp
      · simp at hp
        exact hp.symm
      · simp at hp

theorem run_tnscope_calls_of_reach (C : Collab) (align_bams : List String) (items : List Item)
    (ref_file : String) (assoc_files : List (String × PyVal)) (outFile : Option String)
    (pd : Paired) (lic : String)
    (hfe : C.file_exists (resolve_out outFile align_bams) = false)
    (hpd : C.get_paired = some pd)
    (hn : optStrTruthy pd.normal_bam = true)
    (hl : license_export (items.headD default) = .ok lic) :
    (run_tnscope C align_bams items ref_file assoc_files outFile).calls =
      [tnscopeCmdOf C align_bams lic ref_file assoc_files pd outFile] := by
  rw [List.headD_eq_head?_getD] at hl
  simp [run_tnscope, tnscopeCmdOf, hfe, hpd, hn, hl]
  split <;> rfl

theorem run_tnhaplotyper_calls_of_reach (C : Collab) (align_bams : List String) (items : List Item)
    (ref_file : String) (assoc_files : List (String × PyVal)) (outFile : Option String)
    (pd : Paired) (lic : String)
    (hfe : C.file_exists (resolve_out outFile align_bams) = false)
    (hpd : C.get_paired = some pd)
    (hn : optStrTruthy pd.normal_bam = true)
    (hl : license_export (items.headD default) = .ok lic) :
    (run_tnhaplotyper C align_bams items ref_file assoc_files outFile).calls =
      [tnhaplotyperCmdOf C align_bams lic ref_file assoc_files pd outFile] := by
  rw [List.headD_eq_head?_getD] at hl
  simp [run_tnhaplotyper, tnhaplotyperCmdOf, hfe, hpd, hn, hl]
  split <;> rfl

theorem run_haplotyper_calls_of_reach (C : Collab) (align_bams : List String) (items : List Item)
    (ref_file : String) (assoc_files : List (String × PyVal)) (outFile : Option String)
    (lic : String)
    (hfe : C.file_exists (resolve_out outFile align_bams) = false)
    (hl : license_export (items.headD default) = .ok lic) :
    (run_haplotyper C align_bams items ref_file assoc_files outFile).calls =
      [haplotyperCmdOf C align_bams lic ref_file assoc_files outFile] := by
  rw [List.headD_eq_head?_getD] at hl
  simp [run_haplotyper, haplotyperCmdOf, hfe, hl]
  split <;> rfl

theorem run_tnscope_calls_empty_of_license_error (C : Collab) (align_bams : List String)
    (items : List Item) (ref_file : String) (assoc_files : List (String × PyVal))
    (outFile : Option String) (e : String)
    (hle : license_export (items.headD default) = .error e) :
    (run_tnscope C align_bams items ref_file assoc_files outFile).calls = [] := by
  simp only [run_tnscope]
  split
  · rfl
  · split
    · rfl
    · split
      · rw [hle]
      · rfl

theorem run_tnhaplotyper_calls_empty_of_license_error (C : Collab) (align_bams : List String)
    (items : List Item) (ref_file : String) (assoc_files : List (String × PyVal))
    (outFile : Option String) (e : String)
    (hle : license_export (items.headD default) = .error e) :
    (run_tnhaplotyper C align_bams items ref_file assoc_files outFile).calls = [] := by
  simp only [run_tnhaplotyper]
  split
  · rfl
  · split
    · rfl
    · split
      · rw [hle]
      · rfl

theorem run_haplotyper_calls_empty_of_license_error (C : Collab) (align_bams : List String)
    (items : List Item) (ref_file : String) (assoc_files : List (String × PyVal))
    (outFile : Option String) (e : String)
    (hle : license_export (items.headD default) = .error e) :
    (run_haplotyper C align_bams items ref_file assoc_files outFile).calls = [] := by
  simp only [run_haplotyper]
  split
  · rfl
  · rw [hle]

theorem license_export_error_of_falsy (d : Item) (h : keyfile_falsy d = true) :
    license_export d = .error licenseErrMsg := by
  unfold keyfile_falsy at h
  rcases hk : dictGet "keyfile" (get_resources "sentieon" d.config) with _ | k
  · simp [license_export, hk]
  · rw [hk] at h
    simp at h
    simp [license_export, hk, h]

/-- A concrete tumor/normal pairing used by the concrete instantiations. -/
def pdW : Paired := ⟨"/x/t.bam", some "/x/n.bam", "T1", "N1"⟩

/-- A concrete item whose sentieon resources hold a string keyfile. -/
def itemOk : Item := ⟨⟨[("sentieon", [("keyfile", .kstr "500@srv")])]⟩⟩

/-- The license prefix `license_export` produces for `itemOk`. -/
def licW : String := "export SENTIEON_LICENSE=500@srv && "

/-- Collaborators for which the resolved output path already exists. -/
def CwExists : Collab := ⟨fun _ => true, fun _ => false, id, fun _ => true, none, fun _ => "", none⟩

/-- Collaborators with a derivable pairing and a succeeding process runner. -/
def CwOk : Collab := ⟨fun _ => false, fun _ => false, fun f => "/tx" ++ f, fun _ => true, none, fun _ => "", some pdW⟩

/-- Collaborators with a derivable pairing and a failing process runner. -/
def CwFail : Collab := ⟨fun _ => false, fun _ => false, fun f => "/tx" ++ f, fun _ => false, none, fun _ => "", some pdW⟩

/-- Collaborators for which no pairing is derivable. -/
def Cnone : Collab := ⟨fun _ => false, fun _ => false, id, fun _ => true, none, fun _ => "", none⟩

/-- C1 counterexample: for the license configuration whose keyfile is the
mapping with `sentieon_license` bound to `8990@srv`, `license_export` does not
return `export SENTIEON_LICENSE=8990@SRV && `: the code upper-cases only the
key (`key.upper()`), never the value, so the claimed literal output (whose
value part reads `8990@SRV`) is wrong. -/
theorem c1_dict_export_value_not_uppercased :
    license_export ⟨⟨[("sentieon", [("keyfile", Keyfile.kdict [("sentieon_license", "8990@srv")])])]⟩⟩ ≠
      Except.ok "export SENTIEON_LICENSE=8990@SRV && " := by decide

/-- C1 (amended): for a keyfile mapping with the single entry
`sentieon_license ↦ 8990@srv`, `license_export` returns exactly
`export SENTIEON_LICENSE=8990@srv && ` — each key is upper-cased, the value is
not altered, and the fragment ends with the ` && ` chaining separator; for a
mapping with several entries, one export statement is produced per entry in the
mapping's insertion order. -/
theorem c1_dict_export_upper_keys_insertion_order :
    license_export ⟨⟨[("sentieon", [("keyfile", Keyfile.kdict [("sentieon_license", "8990@srv")])])]⟩⟩ =
      Except.ok "export SENTIEON_LICENSE=8990@srv && " ∧
    ∀ (kv : String × String) (rest : List (String × String)),
      license_export ⟨⟨[("sentieon", [("keyfile", Keyfile.kdict (kv :: rest))])]⟩⟩ =
        Except.ok (exportsOf (kv :: rest)) := by
  constructor
  · decide
  · intro kv rest
    have h0 : license_export ⟨⟨[("sentieon", [("keyfile", Keyfile.kdict (kv :: rest))])]⟩⟩ =
        Except.ok ((kv :: rest).foldl
          (fun exports e => exports ++ ("export " ++ strUpper e.1 ++ "=" ++ e.2 ++ " && ")) "") := rfl
    rw [h0, foldl_exports, strEmpty_app]

/-- C2: for every call to `run_tnscope`, `run_tnhaplotyper` or `run_haplotyper`
in which the resolved output path already exists, no external process is
invoked (the `do.run` call list is empty) and the call returns that existing
output path unchanged. -/
theorem c2_existing_output_short_circuits (C : Collab) (align_bams : List String)
    (items : List Item) (ref_file : String) (assoc_files : List (String × PyVal))
    (outFile : Option String)
    (h : C.file_exists (resolve_out outFile align_bams) = true) :
    run_tnscope C align_bams items ref_file assoc_files outFile =
      ⟨.ok (resolve_out outFile align_bams), [], true⟩ ∧
    run_tnhaplotyper C align_bams items ref_file assoc_files outFile =
      ⟨.ok (resolve_out outFile align_bams), [], true⟩ ∧
    run_haplotyper C align_bams items ref_file assoc_files outFile =
      ⟨.ok (resolve_out outFile align_bams), [], true⟩ := by
  refine ⟨?_, ?_, ?_⟩ <;> simp [run_tnscope, run_tnhaplotyper, run_haplotyper, h]

/-- C2 witness: a concrete call whose resolved output exists returns the path
with no process invocation, for all three callers. -/
theorem c2_witness :
    run_tnscope CwExists ["/x/s.bam"] [itemOk] "/ref.fa" [] none =
      ⟨.ok "/x/s-variants.vcf.gz", [], true⟩ ∧
    run_tnhaplotyper CwExists ["/x/s.bam"] [itemOk] "/ref.fa" [] none =
      ⟨.ok "/x/s-variants.vcf.gz", [], true⟩ ∧
    run_haplotyper CwExists ["/x/s.bam"] [itemOk] "/ref.fa" [] none =
      ⟨.ok "/x/s-variants.vcf.gz", [], true⟩ :=
  c2_existing_output_short_circuits CwExists ["/x/s.bam"] [itemOk] "/ref.fa" [] none rfl

/-- C3 counterexample: calling `run_tnhaplotyper` with a pairing extractor that
returns a falsy result raises `AttributeError` (attribute access
`paired.normal_bam` on `None`), not an assertion error, because the source
asserts only `paired.normal_bam` without first asserting `paired`. -/
theorem c3_falsy_pairing_attribute_error :
    raisedAssertion (run_tnhaplotyper Cnone ["/x/t.bam"] [itemOk] "/ref.fa" [] none) = false ∧
    (run_tnhaplotyper Cnone ["/x/t.bam"] [itemOk] "/ref.fa" [] none).result =
      .error (.attributeError "NoneType object has no attribute normal_bam") := by decide

/-- C3 (amended): for calls whose resolved output does not already exist and
whose inputs yield no tumor/normal pairing, both paired callers stop before any
external process with no output produced; `run_tnscope` raises an assertion
error both for a falsy pairing and for a pairing with no normal BAM, while
`run_tnhaplotyper` raises an assertion error only for a pairing with no normal
BAM and raises an attribute error for a falsy pairing. -/
theorem c3_missing_normal_precondition (C : Collab) (align_bams : List String)
    (items : List Item) (ref_file : String) (assoc_files : List (String × PyVal))
    (outFile : Option String)
    (hfe : C.file_exists (resolve_out outFile align_bams) = false) :
    (C.get_paired = none →
      run_tnscope C align_bams items ref_file assoc_files outFile =
        ⟨.error (.assertionError "Require normal BAM for Sentieon TNscope"), [], false⟩ ∧
      run_tnhaplotyper C align_bams items ref_file assoc_files outFile =
        ⟨.error (.attributeError "NoneType object has no attribute normal_bam"), [], false⟩) ∧
    (∀ pd : Paired, C.get_paired = some pd → optStrTruthy pd.normal_bam = false →
      run_tnscope C align_bams items ref_file assoc_files outFile =
        ⟨.error (.assertionError "Require normal BAM for Sentieon TNscope"), [], false⟩ ∧
      run_tnhaplotyper C align_bams items ref_file assoc_files outFile =
        ⟨.error (.assertionError "Require normal BAM for Sentieon TNhaplotyper"), [], false⟩) := by
  constructor
  · intro hpd
    constructor <;> simp [run_tnscope, run_tnhaplotyper, hfe, hpd]
  · intro pd hpd hn
    constructor <;> simp [run_tnscope, run_tnhaplotyper, hfe, hpd, hn]

/-- C3 witness: a concrete falsy pairing stops both paired callers before any
process, with no output produced. -/
theorem c3_witness :
    run_tnscope Cnone ["/x/t.bam"] [itemOk] "/ref.fa" [] none =
      ⟨.error (.assertionError "Require normal BAM for Sentieon TNscope"), [], false⟩ ∧
    run_tnhaplotyper Cnone ["/x/t.bam"] [itemOk] "/ref.fa" [] none =
      ⟨.error (.attributeError "NoneType object has no attribute normal_bam"), [], false⟩ :=
  (c3_missing_normal_precondition Cnone ["/x/t.bam"] [itemOk] "/ref.fa" [] none rfl).1 rfl

/-- C4: with no explicit output path and a non-empty alignment list, the
resolved output path equals the first alignment's path with its (possibly
multi-part) extension replaced by the fixed suffix `-variants.vcf.gz`, and any
path one of the three callers returns successfully is exactly that derived
path — the derivation depends only on the first alignment's path. -/
theorem c4_derived_output_path (C : Collab) (b : String) (bs : List String)
    (items : List Item) (ref_file : String) (assoc_files : List (String × PyVal)) :
    resolve_out none (b :: bs) = (splitext_plus b).1 ++ "-variants.vcf.gz" ∧
    (∀ p, (run_tnscope C (b :: bs) items ref_file assoc_files none).result = .ok p →
      p = (splitext_plus b).1 ++ "-variants.vcf.gz") ∧
    (∀ p, (run_tnhaplotyper C (b :: bs) items ref_file assoc_files none).result = .ok p →
      p = (splitext_plus b).1 ++ "-variants.vcf.gz") ∧
    (∀ p, (run_haplotyper C (b :: bs) items ref_file assoc_files none).result = .ok p →
      p = (splitext_plus b).1 ++ "-variants.vcf.gz") := by
  have hres : resolve_out none (b :: bs) = (splitext_plus b).1 ++ "-variants.vcf.gz" := rfl
  refine ⟨hres, ?_, ?_, ?_⟩ <;> intro p hp <;> rw [← hres]
  · exact run_tnscope_ok_out C (b :: bs) items ref_file assoc_files none p hp
  · exact run_tnhaplotyper_ok_out C (b :: bs) items ref_file assoc_files none p hp
  · exact run_haplotyper_ok_out C (b :: bs) items ref_file assoc_files none p hp

/-- C4 witness: a successful concrete call returns the derived
`-variants.vcf.gz` path of its first alignment. -/
theorem c4_witness :
    (run_tnscope CwOk ["/x/s.bam"] [itemOk] "/ref.fa" [] none).result = .ok "/x/s-variants.vcf.gz" ∧
    "/x/s-variants.vcf.gz" = (splitext_plus "/x/s.bam").1 ++ "-variants.vcf.gz" :=
  ⟨by decide,
   (c4_derived_output_path CwOk "/x/s.bam" [] [itemOk] "/ref.fa" []).2.1 "/x/s-variants.vcf.gz" (by decide)⟩

/-- C5: for every input to `_get_interval`, a falsy reconciled subsetting
result (absent, or the empty string) yields the empty fragment; a string
result naming an existing file yields exactly `--interval <path>`; a truthy
string result that is not an existing file, and a structured region
descriptor, yield `--interval` followed by the region formatter applied to the
reconciled result. -/
theorem c5_interval_fragment (C : Collab) :
    (C.subset_variant_regions = none → _get_interval C = "") ∧
    (C.subset_variant_regions = some (.tstr "") → _get_interval C = "") ∧
    (∀ s, C.subset_variant_regions = some (.tstr s) → s ≠ "" → C.isfile s = true →
      _get_interval C = "--interval " ++ s) ∧
    (∀ s, C.subset_variant_regions = some (.tstr s) → s ≠ "" → C.isfile s = false →
      _get_interval C = "--interval " ++ C.region_to_gatk (.tstr s)) ∧
    (∀ ch st en, C.subset_variant_regions = some (.tdesc ch st en) →
      _get_interval C = "--interval " ++ C.region_to_gatk (.tdesc ch st en)) := by
  refine ⟨?_, ?_, ?_, ?_, ?_⟩
  · intro h
    simp [_get_interval, h]
  · intro h
    simp [_get_interval, h, Target.truthy]
  · intro s h hs hf
    simp [_get_interval, h, Target.truthy, hs, hf]
  · intro s h hs hf
    simp [_get_interval, h, Target.truthy, hs, hf]
  · intro ch st en h
    simp [_get_interval, h, Target.truthy]

/-- C5 witness: concrete collaborator records exercising the existing-file,
structured-descriptor and no-restriction branches of `_get_interval`. -/
theorem c5_witness :
    _get_interval ⟨fun _ => false, fun _ => true, id, fun _ => true, some (Target.tstr "/a.bed"), fun _ => "gatkfmt", none⟩ = "--interval /a.bed" ∧
    _get_interval ⟨fun _ => false, fun _ => false, id, fun _ => true, some (Target.tdesc "chr1" 10 20), fun _ => "chr1:11-20", none⟩ = "--interval chr1:11-20" ∧
    _get_interval ⟨fun _ => false, fun _ => false, id, fun _ => true, none, fun _ => "", none⟩ = "" := by
  refine ⟨?_, ?_, ?_⟩
  · exact (c5_interval_fragment ⟨fun _ => false, fun _ => true, id, fun _ => true, some (Target.tstr "/a.bed"), fun _ => "gatkfmt", none⟩).2.2.1 "/a.bed" rfl (by decide) rfl
  · exact (c5_interval_fragment ⟨fun _ => false, fun _ => false, id, fun _ => true, some (Target.tdesc "chr1" 10 20), fun _ => "chr1:11-20", none⟩).2.2.2.2 "chr1" 10 20 rfl
  · exact (c5_interval_fragment ⟨fun _ => false, fun _ => false, id, fun _ => true, none, fun _ => "", none⟩).1 rfl

/-- C6: for every caller invocation that reaches the process runner, a failing
process (non-zero exit) yields a raised execution error carrying the command,
the single recorded process call, and a final output that does not exist — the
command writes only to the transactional temporary path
(`C.tx_path <final>`, embedded in the command in place of the final path) and
the transactional scope discards the partial artifact on error. -/
theorem c6_proc_failure_atomic (C : Collab) (align_bams : List String) (items : List Item)
    (ref_file : String) (assoc_files : List (String × PyVal)) (outFile : Option String)
    (pd : Paired) (lic : String)
    (hfe : C.file_exists (resolve_out outFile align_bams) = false)
    (hpd : C.get_paired = some pd)
    (hn : optStrTruthy pd.normal_bam = true)
    (hl : license_export (items.headD default) = .ok lic) :
    (C.proc_ok (tnscopeCmdOf C align_bams lic ref_file assoc_files pd outFile) = false →
      run_tnscope C align_bams items ref_file assoc_files outFile =
        ⟨.error (.subprocessError (tnscopeCmdOf C align_bams lic ref_file assoc_files pd outFile)),
         [tnscopeCmdOf C align_bams lic ref_file assoc_files pd outFile], false⟩) ∧
    (C.proc_ok (tnhaplotyperCmdOf C align_bams lic ref_file assoc_files pd outFile) = false →
      run_tnhaplotyper C align_bams items ref_file assoc_files outFile =
        ⟨.error (.subprocessError (tnhaplotyperCmdOf C align_bams lic ref_file assoc_files pd outFile)),
         [tnhaplotyperCmdOf C align_bams lic ref_file assoc_files pd outFile], false⟩) ∧
    (C.proc_ok (haplotyperCmdOf C align_bams lic ref_file assoc_files outFile) = false →
      run_haplotyper C align_bams items ref_file assoc_files outFile =
        ⟨.error (.subprocessError (haplotyperCmdOf C align_bams lic ref_file assoc_files outFile)),
         [haplotyperCmdOf C align_bams lic ref_file assoc_files outFile], false⟩) := by
  rw [List.headD_eq_head?_getD] at hl
  refine ⟨?_, ?_, ?_⟩ <;> intro hc
  · simp only [tnscopeCmdOf] at hc
    simp [run_tnscope, tnscopeCmdOf, hfe, hpd, hn, hl, hc]
  · simp only [tnhaplotyperCmdOf] at hc
    simp [run_tnhaplotyper, tnhaplotyperCmdOf, hfe, hpd, hn, hl, hc]
  · simp only [haplotyperCmdOf] at hc
    simp [run_haplotyper, haplotyperCmdOf, hfe, hl, hc]

/-- C6 witness: a concrete failing process leaves no final output and raises
the execution error carrying the formatted command. -/
theorem c6_witness :
    run_tnscope CwFail ["/x/t.bam"] [itemOk] "/ref.fa" [] none =
      ⟨.error (.subprocessError (tnscopeCmdOf CwFail ["/x/t.bam"] licW "/ref.fa" [] pdW none)),
       [tnscopeCmdOf CwFail ["/x/t.bam"] licW "/ref.fa" [] pdW none], false⟩ :=
  (c6_proc_failure_atomic CwFail ["/x/t.bam"] [itemOk] "/ref.fa" [] none pdW licW rfl rfl
    (by decide) (by decide)).1 rfl

/-- C7 counterexample: with associated files binding `dbsnp` to the path
`--cosmic` and no `cosmic` key, the constructed TNhaplotyper command does
contain the substring `--cosmic` (contributed by the dbsnp value), so the
claim's universally-quantified non-containment is false as stated. -/
theorem c7_counterexample :
    dictGet "cosmic" [("dbsnp", PyVal.vstr "--cosmic")] = none ∧
    (run_tnhaplotyper CwFail ["/x/t.bam"] [itemOk] "/ref.fa" [("dbsnp", PyVal.vstr "--cosmic")] none).calls =
      ["export SENTIEON_LICENSE=500@srv && sentieon driver -t 1 -r /ref.fa -i /x/t.bam -i /x/n.bam  --algo TNhaplotyper --tumor_sample T1 --normal_sample N1 --dbsnp --cosmic  /tx/x/t-variants.vcf.gz"] ∧
    StrContains "export SENTIEON_LICENSE=500@srv && sentieon driver -t 1 -r /ref.fa -i /x/t.bam -i /x/n.bam  --algo TNhaplotyper --tumor_sample T1 --normal_sample N1 --dbsnp --cosmic  /tx/x/t-variants.vcf.gz" "--cosmic" :=
  ⟨by decide, by decide,
   "export SENTIEON_LICENSE=500@srv && sentieon driver -t 1 -r /ref.fa -i /x/t.bam -i /x/n.bam  --algo TNhaplotyper --tumor_sample T1 --normal_sample N1 --dbsnp ",
   "  /tx/x/t-variants.vcf.gz", by decide⟩

/-- C7 (amended): when the associated files contain `dbsnp` with value `p` and
no `cosmic` key, the TNhaplotyper command contains the fragment
`--dbsnp <p>` and the emitted cosmic fragment is the empty string, so no
`--cosmic <path>` flag is emitted (the command can still contain `--cosmic` as
a substring only when an input string itself contains it); symmetrically, a
present `cosmic` key yields a `--cosmic <path>` fragment and an absent `dbsnp`
key yields an empty dbsnp fragment. -/
theorem c7_tnhaplotyper_flag_fragments (C : Collab) (align_bams : List String)
    (items : List Item) (ref_file : String) (assoc_files : List (String × PyVal))
    (outFile : Option String) (pd : Paired) (lic : String) (p : PyVal)
    (hfe : C.file_exists (resolve_out outFile align_bams) = false)
    (hpd : C.get_paired = some pd)
    (hn : optStrTruthy pd.normal_bam = true)
    (hl : license_export (items.headD default) = .ok lic)
    (hd : dictGet "dbsnp" assoc_files = some p)
    (hc : dictGet "cosmic" assoc_files = none) :
    assoc_flag "--cosmic" "cosmic" assoc_files = "" ∧
    (run_tnhaplotyper C align_bams items ref_file assoc_files outFile).calls =
      [tnhaplotyperCmdOf C align_bams lic ref_file assoc_files pd outFile] ∧
    StrContains (tnhaplotyperCmdOf C align_bams lic ref_file assoc_files pd outFile)
      ("--dbsnp " ++ p.str) ∧
    (∀ (assoc2 : List (String × PyVal)) (q : PyVal), dictGet "cosmic" assoc2 = some q →
      assoc_flag "--cosmic" "cosmic" assoc2 = "--cosmic " ++ q.str) ∧
    (∀ assoc2 : List (String × PyVal), dictGet "dbsnp" assoc2 = none →
      assoc_flag "--dbsnp" "dbsnp" assoc2 = "") := by
  refine ⟨assoc_flag_none _ _ _ hc,
    run_tnhaplotyper_calls_of_reach C align_bams items ref_file assoc_files outFile pd lic hfe hpd hn hl,
    ?_, ?_, ?_⟩
  · refine ⟨lic ++ "sentieon driver -t 1 -r " ++ ref_file ++ " -i " ++ pd.tumor_bam ++ " -i " ++
      pd.normal_bam.getD "" ++ " " ++ _get_interval C ++ " --algo TNhaplotyper --tumor_sample " ++
      pd.tumor_name ++ " --normal_sample " ++ pd.normal_name ++ " ",
      " " ++ assoc_flag "--cosmic" "cosmic" assoc_files ++ " " ++
      C.tx_path (resolve_out outFile align_bams), ?_⟩
    simp [tnhaplotyperCmdOf, tnhaplotyper_cmd, assoc_flag, hd, strApp_assoc]
  · intro assoc2 q hq
    exact assoc_flag_some _ _ _ _ hq
  · intro assoc2 hq
    exact assoc_flag_none _ _ _ hq

/-- C7 witness: a concrete TNhaplotyper call with a dbsnp path and no cosmic
key has an empty cosmic fragment and a command containing the dbsnp flag. -/
theorem c7_witness :
    assoc_flag "--cosmic" "cosmic" [("dbsnp", PyVal.vstr "/x/db.vcf")] = "" ∧
    StrContains (tnhaplotyperCmdOf CwFail ["/x/t.bam"] licW "/ref.fa" [("dbsnp", PyVal.vstr "/x/db.vcf")] pdW none)
      "--dbsnp /x/db.vcf" := by
  have h := c7_tnhaplotyper_flag_fragments CwFail ["/x/t.bam"] [itemOk] "/ref.fa"
    [("dbsnp", PyVal.vstr "/x/db.vcf")] none pdW licW (PyVal.vstr "/x/db.vcf") rfl rfl
    (by decide) (by decide) rfl rfl
  exact ⟨h.1, h.2.2.1⟩

/-- C8: when the sentieon resources of the first item have no truthy `keyfile`
entry, `license_export` raises the configuration `ValueError`, and every
caller resolves the license before invoking the process runner, so no external
process is started in any of the three callers. -/
theorem c8_missing_keyfile_no_process (C : Collab) (align_bams : List String)
    (items : List Item) (ref_file : String) (assoc_files : List (String × PyVal))
    (outFile : Option String)
    (h : keyfile_falsy (items.headD default) = true) :
    license_export (items.headD default) = .error licenseErrMsg ∧
    (run_tnscope C align_bams items ref_file assoc_files outFile).calls = [] ∧
    (run_tnhaplotyper C align_bams items ref_file assoc_files outFile).calls = [] ∧
    (run_haplotyper C align_bams items ref_file assoc_files outFile).calls = [] := by
  have hle := license_export_error_of_falsy (items.headD default) h
  exact ⟨hle,
    run_tnscope_calls_empty_of_license_error C align_bams items ref_file assoc_files outFile licenseErrMsg hle,
    run_tnhaplotyper_calls_empty_of_license_error C align_bams items ref_file assoc_files outFile licenseErrMsg hle,
    run_haplotyper_calls_empty_of_license_error C align_bams items ref_file assoc_files outFile licenseErrMsg hle⟩

/-- C8 witness: a concrete item with no keyfile resource makes `license_export`
raise and leaves every caller's process-call list empty. -/
theorem c8_witness :
    license_export (⟨⟨[]⟩⟩ : Item) = .error licenseErrMsg ∧
    (run_tnscope CwOk ["/x/t.bam"] [⟨⟨[]⟩⟩] "/ref.fa" [] none).calls = [] ∧
    (run_tnhaplotyper CwOk ["/x/t.bam"] [⟨⟨[]⟩⟩] "/ref.fa" [] none).calls = [] ∧
    (run_haplotyper CwOk ["/x/t.bam"] [⟨⟨[]⟩⟩] "/ref.fa" [] none).calls = [] :=
  c8_missing_keyfile_no_process CwOk ["/x/t.bam"] [⟨⟨[]⟩⟩] "/ref.fa" [] none (by decide)

/-- C9: every Haplotyper command handed to the process runner embeds exactly
one `-i <path>` fragment per alignment file, joined in list order
(`" ".join(["-i %s" % x for x in align_bams])`), and every Haplotyper command
contains the ` --algo Haplotyper ` algorithm selector. -/
theorem c9_haplotyper_bam_flags (C : Collab) (align_bams : List String) (items : List Item)
    (ref_file : String) (assoc_files : List (String × PyVal)) (outFile : Option String)
    (lic : String)
    (hfe : C.file_exists (resolve_out outFile align_bams) = false)
    (hl : license_export (items.headD default) = .ok lic) :
    (run_haplotyper C align_bams items ref_file assoc_files outFile).calls =
      [haplotyper_cmd lic ref_file (String.intercalate " " (align_bams.map (fun x => "-i " ++ x)))
        (_get_interval C) (assoc_flag "--dbsnp" "dbsnp" assoc_files)
        (C.tx_path (resolve_out outFile align_bams))] ∧
    (∀ l r bf iv db tx, StrContains (haplotyper_cmd l r bf iv db tx) " --algo Haplotyper ") := by
  constructor
  · exact run_haplotyper_calls_of_reach C align_bams items ref_file assoc_files outFile lic hfe hl
  · intro l r bf iv db tx
    refine ⟨l ++ "sentieon driver -t 1 -r " ++ r ++ " " ++ bf ++ " " ++ iv, db ++ " " ++ tx, ?_⟩
    simp [haplotyper_cmd, strApp_assoc]

/-- C9 witness: a concrete two-alignment Haplotyper call records one command
with `-i /x/a.bam -i /x/b.bam` in input order and the Haplotyper selector. -/
theorem c9_witness :
    (run_haplotyper CwFail ["/x/a.bam", "/x/b.bam"] [itemOk] "/ref.fa" [] none).calls =
      [haplotyper_cmd licW "/ref.fa" "-i /x/a.bam -i /x/b.bam" (_get_interval CwFail)
        (assoc_flag "--dbsnp" "dbsnp" []) (CwFail.tx_path (resolve_out none ["/x/a.bam", "/x/b.bam"]))] ∧
    StrContains (haplotyper_cmd licW "/ref.fa" "-i /x/a.bam -i /x/b.bam" "" "" "/tx/x/a-variants.vcf.gz")
      " --algo Haplotyper " := by
  have h := c9_haplotyper_bam_flags CwFail ["/x/a.bam", "/x/b.bam"] [itemOk] "/ref.fa" [] none licW
    rfl (by decide)
  exact ⟨h.1, h.2 licW "/ref.fa" "-i /x/a.bam -i /x/b.bam" "" "" "/tx/x/a-variants.vcf.gz"⟩

/-- C10: flag emission depends only on key membership in the associated-files
mapping, never on the value: a `dbsnp` key bound to any value `v` (including
the falsy `None`) yields the fragment `--dbsnp <str(v)>` — so `--dbsnp None`
for `None` — embedded in the commands of all three callers, and a present
`cosmic` key behaves the same for `run_tnhaplotyper`. -/
theorem c10_flag_emission_membership_only (C : Collab) (align_bams : List String)
    (items : List Item) (ref_file : String) (assoc_files : List (String × PyVal))
    (outFile : Option String) (pd : Paired) (lic : String) (v : PyVal)
    (hfe : C.file_exists (resolve_out outFile align_bams) = false)
    (hpd : C.get_paired = some pd)
    (hn : optStrTruthy pd.normal_bam = true)
    (hl : license_export (items.headD default) = .ok lic)
    (hd : dictGet "dbsnp" assoc_files = some v) :
    PyVal.str PyVal.vnone = "None" ∧
    assoc_flag "--dbsnp" "dbsnp" assoc_files = "--dbsnp " ++ v.str ∧
    (run_tnscope C align_bams items ref_file assoc_files outFile).calls =
      [tnscopeCmdOf C align_bams lic ref_file assoc_files pd outFile] ∧
    StrContains (tnscopeCmdOf C align_bams lic ref_file assoc_files pd outFile)
      ("--dbsnp " ++ v.str) ∧
    (run_haplotyper C align_bams items ref_file assoc_files outFile).calls =
      [haplotyperCmdOf C align_bams lic ref_file assoc_files outFile] ∧
    StrContains (haplotyperCmdOf C align_bams lic ref_file assoc_files outFile)
      ("--dbsnp " ++ v.str) ∧
    (∀ w, dictGet "cosmic" assoc_files = some w →
      StrContains (tnhaplotyperCmdOf C align_bams lic ref_file assoc_files pd outFile)
        ("--cosmic " ++ w.str)) := by
  refine ⟨rfl, assoc_flag_some _ _ _ _ hd,
    run_tnscope_calls_of_reach C align_bams items ref_file assoc_files outFile pd lic hfe hpd hn hl,
    ?_,
    run_haplotyper_calls_of_reach C align_bams items ref_file assoc_files outFile lic hfe hl,
    ?_, ?_⟩
  · refine ⟨lic ++ "sentieon driver -t 1 -r " ++ ref_file ++ " -i " ++ pd.tumor_bam ++ " -i " ++
      pd.normal_bam.getD "" ++ " " ++ _get_interval C ++ " --algo TNscope --tumor_sample " ++
      pd.tumor_name ++ " --normal_sample " ++ pd.normal_name ++ " ",
      " " ++ C.tx_path (resolve_out outFile align_bams), ?_⟩
    simp [tnscopeCmdOf, tnscope_cmd, assoc_flag, hd, strApp_assoc]
  · refine ⟨lic ++ "sentieon driver -t 1 -r " ++ ref_file ++ " " ++
      String.intercalate " " (align_bams.map (fun x => "-i " ++ x)) ++ " " ++ _get_interval C ++
      " --algo Haplotyper ",
      " " ++ C.tx_path (resolve_out outFile align_bams), ?_⟩
    simp [haplotyperCmdOf, haplotyper_cmd, assoc_flag, hd, strApp_assoc]
  · intro w hw
    refine ⟨lic ++ "sentieon driver -t 1 -r " ++ ref_file ++ " -i " ++ pd.tumor_bam ++ " -i " ++
      pd.normal_bam.getD "" ++ " " ++ _get_interval C ++ " --algo TNhaplotyper --tumor_sample " ++
      pd.tumor_name ++ " --normal_sample " ++ pd.normal_name ++ " " ++
      assoc_flag "--dbsnp" "dbsnp" assoc_files ++ " ",
      " " ++ C.tx_path (resolve_out outFile align_bams), ?_⟩
    simp [tnhaplotyperCmdOf, tnhaplotyper_cmd, assoc_flag, hw, strApp_assoc]

/-- C10 witness: a `dbsnp` key bound to `None` still emits `--dbsnp None` in a
concrete TNscope command. -/
theorem c10_witness :
    assoc_flag "--dbsnp" "dbsnp" [("dbsnp", PyVal.vnone)] = "--dbsnp None" ∧
    StrContains (tnscopeCmdOf CwFail ["/x/t.bam"] licW "/ref.fa" [("dbsnp", PyVal.vnone)] pdW none)
      "--dbsnp None" := by
  have h := c10_flag_emission_membership_only CwFail ["/x/t.bam"] [itemOk] "/ref.fa"
    [("dbsnp", PyVal.vnone)] none pdW licW PyVal.vnone rfl rfl (by decide) (by decide) rfl
  exact ⟨h.2.1, h.2.2.2.1⟩

end Sentieon
